import Mathlib

/-!
Shallow embedding of the Olarm Home Assistant integration
(`custom_components/olarm`): the MQTT message handler (`handler.py`),
the alarm-control-panel command paths (`alarm_control_panel.py`),
the per-device MQTT client state machine (`mqtt.py`) and the REST
client request wrapper (`api.py`), together with proofs about them.

Python dicts keyed by device id are modelled as total functions with the
`dict.get` default (the source only ever reads them through `.get`);
Python `None`-or-value fields are `Option`; Python string truthiness is
`s ≠ ""`; timestamps are `Nat`.
-/

namespace Olarm

/-! ### Constants (`const.py`) -/

def DOMAIN : String := "olarm"

-- Alarm states
def STATE_DISARMED : String := "disarm"
def STATE_ARMED_AWAY : String := "arm"
def STATE_ARMED_HOME : String := "stay"
def STATE_ARMED_NIGHT : String := "sleep"
def STATE_TRIGGERED : String := "alarm"
def STATE_PENDING : String := "countdown"

-- REST commands
def CMD_DISARM : String := "area-disarm"
def CMD_ARM_AWAY : String := "area-arm"
def CMD_ARM_HOME : String := "area-stay"
def CMD_ARM_NIGHT : String := "area-sleep"

-- MQTT commands
def MQTT_CMD_DISARM : String := "disarm"
def MQTT_CMD_ARM_AWAY : String := "arm"
def MQTT_CMD_ARM_HOME : String := "stay"
def MQTT_CMD_ARM_NIGHT : String := "sleep"

-- Zone states
def ZONE_ACTIVE : String := "a"
def ZONE_CLOSED : String := "c"
def ZONE_BYPASSED : String := "b"

/-! ### Message handler data model (`handler.py`)

An incoming MQTT payload is parsed JSON.  `process_mqtt_message` looks at
`data.get("type")`; `_process_alarm_payload` looks at `payload["data"]` and
then at the optional keys `areas`, `areasDetail`, `areasStamp`, `zones`,
`zonesStamp` of the `data` object (each key may be absent, hence `Option`),
plus the `power` object which is only stored wholesale. -/

structure PowerData where
  AC : Option String
  Batt : Option String
deriving DecidableEq, Repr

/-- The `data` object of an `alarmPayload` message. -/
structure AlarmData where
  areas : Option (List String)
  areasDetail : Option (List String)
  areasStamp : Option (List Nat)
  zones : Option (List String)
  zonesStamp : Option (List Nat)
  power : Option PowerData
deriving DecidableEq, Repr

/-- A decoded MQTT envelope: `data.get("type")` and `payload["data"]`. -/
structure Envelope where
  msgType : Option String
  data : Option AlarmData
deriving DecidableEq, Repr

/-- The per-area object built in `_process_alarm_payload` (lines 112-123). -/
structure AreaRecord where
  area_number : Nat
  area_name : String
  area_state : String
  device_id : String
  last_changed : Option Nat
deriving DecidableEq, Repr

/-- The per-zone object built in `_process_alarm_payload` (lines 151-157). -/
structure ZoneRecord where
  zone_number : Nat
  zone_state : String
  device_id : String
  last_changed : Option Nat
deriving DecidableEq, Repr

/-- A dispatched notification (`async_dispatcher_send`): the signal name and
its payload.  Area and zone signals carry the freshly built record; the
general update signal carries the stored device state. -/
inductive Signal where
  | area (name : String) (payload : AreaRecord)
  | zone (name : String) (payload : ZoneRecord)
  | deviceUpdate (name : String) (payload : AlarmData)
deriving DecidableEq, Repr

/-- Embedding of `OlarmMessageHandler` mutable state: `device_state`, `device_areas`,
`device_zones`.  The dicts are only read via `.get(device_id)` /
`.get(device_id, [])`, so they are modelled as total functions with those
defaults.  (`raw_messages` is a debug ring buffer, not modelled.) -/
structure HandlerState where
  device_state : String → Option AlarmData
  device_areas : String → List AreaRecord
  device_zones : String → List ZoneRecord

/-- Embedding of `__init__`: all three dicts start empty. -/
def initHandler : HandlerState :=
  { device_state := fun _ => none
    device_areas := fun _ => []
    device_zones := fun _ => [] }

/-- Area name selection (lines 105-110): `areasDetail[i]` when the key is
present, the index is in range and the entry is truthy; otherwise
`"Area {i+1}"`. -/
def areaNameAt (d : AlarmData) (i : Nat) : String :=
  match d.areasDetail with
  | some det =>
      match det.get? i with
      | some s => if s ≠ "" then s else s!"Area {i + 1}"
      | none => s!"Area {i + 1}"
  | none => s!"Area {i + 1}"

/-- The areas list built from one payload (lines 102-124): one record per
entry of `alarm_data["areas"]`, with `last_changed` taken from
`areasStamp[i]` when that key is present and in range. -/
def mkAreas (device_id : String) (d : AlarmData) (la : List String) : List AreaRecord :=
  la.enum.map fun p =>
    { area_number := p.1 + 1
      area_name := areaNameAt d p.1
      area_state := p.2
      device_id := device_id
      last_changed := d.areasStamp.bind fun st => st.get? p.1 }

/-- The zones list built from one payload (lines 149-158): one record per
entry of `alarm_data["zones"]`; `last_changed` is `zonesStamp[i]` when in
range, else `None`. -/
def mkZones (device_id : String) (lz : List String) (stamps : List Nat) :
    List ZoneRecord :=
  lz.enum.map fun p =>
    { zone_number := p.1 + 1
      zone_state := p.2
      device_id := device_id
      last_changed := stamps.get? p.1 }

/-- Signal name for one area (line 138). -/
def areaSignalName (device_id : String) (n : Nat) : String :=
  s!"{DOMAIN}_{device_id}_area_{n}"

/-- Signal name for one zone (line 172). -/
def zoneSignalName (device_id : String) (n : Nat) : String :=
  s!"{DOMAIN}_{device_id}_zone_{n}"

/-- The rebuilt areas list, present exactly when the `areas` key is
present (line 102). -/
def newAreasOf (device_id : String) (d : AlarmData) : Option (List AreaRecord) :=
  d.areas.map (mkAreas device_id d)

/-- The rebuilt zones list, present exactly when both `zones` and
`zonesStamp` are present (line 148). -/
def newZonesOf (device_id : String) (d : AlarmData) : Option (List ZoneRecord) :=
  match d.zones, d.zonesStamp with
  | some lz, some stamps => some (mkZones device_id lz stamps)
  | _, _ => none

/-- Embedding of `_process_alarm_payload` (handler.py lines 78-185), returning the new
handler state and the list of dispatched signals in dispatch order.

* missing `data` key: return unchanged, nothing dispatched (lines 80-83);
* `device_state[device_id] = alarm_data` unconditionally (line 88);
* areas are rebuilt and stored only when the `areas` key is present
  (lines 102-134); a signal is dispatched for every area in the new list
  (lines 137-139) — the comparison with the previous snapshot on lines
  126-131 only drives log output;
* zones are rebuilt and stored only when both `zones` and `zonesStamp`
  are present (line 148); a signal is dispatched for every zone
  (lines 171-173);
* finally the general `_update` signal carries the stored state (line 184). -/
def processAlarmPayload (h : HandlerState) (device_id : String) (payload : Envelope) :
    HandlerState × List Signal :=
  match payload.data with
  | none => (h, [])
  | some d =>
    let newAreas := newAreasOf device_id d
    let newZones := newZonesOf device_id d
    let h3 : HandlerState :=
      { device_state := fun x => if x = device_id then some d else h.device_state x
        device_areas := fun x =>
          if x = device_id then
            match newAreas with
            | some l => l
            | none => h.device_areas x
          else h.device_areas x
        device_zones := fun x =>
          if x = device_id then
            match newZones with
            | some l => l
            | none => h.device_zones x
          else h.device_zones x }
    let areaSigs : List Signal :=
      match newAreas with
      | some l => l.map fun a => Signal.area (areaSignalName device_id a.area_number) a
      | none => []
    let zoneSigs : List Signal :=
      match newZones with
      | some l => l.map fun z => Signal.zone (zoneSignalName device_id z.zone_number) z
      | none => []
    (h3, areaSigs ++ zoneSigs ++ [Signal.deviceUpdate s!"{DOMAIN}_{device_id}_update" d])

/-- Embedding of `process_mqtt_message` (lines 39-76) after successful JSON decode:
only messages with `type == "alarmPayload"` are processed, all others are
discarded with a log note. -/
def processMqttMessage (h : HandlerState) (device_id : String) (payload : Envelope) :
    HandlerState × List Signal :=
  if payload.msgType = some "alarmPayload" then processAlarmPayload h device_id payload
  else (h, [])

/-- Embedding of `get_device_state` (line 187). -/
def get_device_state (h : HandlerState) (device_id : String) : Option AlarmData :=
  h.device_state device_id

/-- Embedding of `get_device_areas` (line 191). -/
def get_device_areas (h : HandlerState) (device_id : String) : List AreaRecord :=
  h.device_areas device_id

/-- Embedding of `get_device_zones` (line 195). -/
def get_device_zones (h : HandlerState) (device_id : String) : List ZoneRecord :=
  h.device_zones device_id

/-- A full STREAM snapshot: the envelope a stream event carries per the
payload format — an `alarmPayload` with `areas`, `zones` and `zonesStamp`
all present. -/
def AlarmData.isFullSnapshot (d : AlarmData) : Prop :=
  d.areas.isSome = true ∧ d.zones.isSome = true ∧ d.zonesStamp.isSome = true

instance (d : AlarmData) : Decidable d.isFullSnapshot := by
  unfold AlarmData.isFullSnapshot; infer_instance

/-- Wrap an `AlarmData` as the stream envelope that carries it. -/
def streamEnvelope (d : AlarmData) : Envelope :=
  { msgType := some "alarmPayload", data := some d }

/-- Apply a sequence of STREAM snapshots for one device, in arrival order. -/
def applySnapshots (h : HandlerState) (device_id : String) : List AlarmData → HandlerState
  | [] => h
  | d :: rest =>
      applySnapshots (processMqttMessage h device_id (streamEnvelope d)).1 device_id rest

/-! ### Alarm control panel (`alarm_control_panel.py`)

The four command handlers `async_alarm_disarm` / `_arm_away` / `_arm_home` /
`_arm_night` (lines 276-518) are textual copies of one another differing
only in the MQTT/REST command constants and log strings, so they are
embedded as one function over the command constants together with four
named instantiations.  The handlers are `-> None` in Python: every
`return` statement returns `None`, so no result value of any kind reaches
the caller; what is observable is the trace of effects, captured in
`CmdEffects`.  `CommandResult` is modelled from the spec: the typed result
taxonomy of spec §7 (`SUCCESS`, `FALLBACK_SUCCESS`, `UNAVAILABLE`,
`API_ERROR`) has no counterpart anywhere in the code, and the
`returnedValue` field records what the handler returns against it. -/

inductive CommandResult where
  | SUCCESS
  | FALLBACK_SUCCESS
  | UNAVAILABLE
  | API_ERROR
deriving DecidableEq, Repr

/-- The configuration of one `OlarmAlarmPanel` entity that the command
paths read: the `_mqtt_enabled`, `_mqtt_client` (presence), its
`is_connected` flag, `_mqtt_only` and `_api_enabled` attributes. -/
structure PanelConfig where
  mqtt_enabled : Bool
  has_mqtt_client : Bool
  mqtt_connected : Bool
  mqtt_only : Bool
  api_enabled : Bool
deriving DecidableEq, Repr

/-- Observable effects of one command handler invocation. -/
structure CmdEffects where
  /-- `publish_action` was invoked on the MQTT client. -/
  publishCalled : Bool
  /-- the MQTT action published, when one was. -/
  publishedAction : Option (String × Nat)
  /-- `send_device_action` was invoked on the REST client. -/
  restCalled : Bool
  /-- the REST action sent, when one was. -/
  restAction : Option (String × Nat)
  /-- `coordinator.async_request_refresh` was awaited. -/
  refreshRequested : Bool
  /-- an error-level log was written. -/
  errorLogged : Bool
  /-- an exception escaped the handler. -/
  raised : Bool
  /-- the value the Python handler returns (always `None` in the source). -/
  returnedValue : Option CommandResult
deriving DecidableEq, Repr

/-- One alarm command handler (the shared body of the four `async_alarm_*`
methods), as a function of the panel configuration, the result the MQTT
`publish_action` call would return, and whether the REST
`send_device_action` call succeeds (`false` = it raises `OlarmApiError`,
which the handler catches and logs).

Control flow, mirroring e.g. `async_alarm_disarm` (lines 276-335):
1. `mqtt_enabled and mqtt_client and mqtt_client.is_connected`:
   publish; on success plain return; otherwise if
   `not api_enabled or mqtt_only` log an error and return; else fall
   through to the API block.
2. else, if `mqtt_enabled`: if `not api_enabled or mqtt_only` log an
   error and return, else fall through; if not `mqtt_enabled`, fall
   through directly.
3. API block: if `not api_enabled` log an error and return; else call
   `send_device_action`, then request a coordinator refresh; an
   `OlarmApiError` is caught and logged. -/
def alarmCommand (mqttCmd restCmd : String) (area_num : Nat) (cfg : PanelConfig)
    (publishOk : Bool) (apiOk : Bool) : CmdEffects :=
  let restBlock : Bool → Option (String × Nat) → CmdEffects := fun pub pubAct =>
    if !cfg.api_enabled then
      { publishCalled := pub, publishedAction := pubAct, restCalled := false,
        restAction := none, refreshRequested := false, errorLogged := true,
        raised := false, returnedValue := none }
    else if apiOk then
      { publishCalled := pub, publishedAction := pubAct, restCalled := true,
        restAction := some (restCmd, area_num), refreshRequested := true,
        errorLogged := false, raised := false, returnedValue := none }
    else
      { publishCalled := pub, publishedAction := pubAct, restCalled := true,
        restAction := some (restCmd, area_num), refreshRequested := false,
        errorLogged := true, raised := false, returnedValue := none }
  if cfg.mqtt_enabled && cfg.has_mqtt_client && cfg.mqtt_connected then
    if publishOk then
      { publishCalled := true, publishedAction := some (mqttCmd, area_num),
        restCalled := false, restAction := none, refreshRequested := false,
        errorLogged := false, raised := false, returnedValue := none }
    else if !cfg.api_enabled || cfg.mqtt_only then
      { publishCalled := true, publishedAction := some (mqttCmd, area_num),
        restCalled := false, restAction := none, refreshRequested := false,
        errorLogged := true, raised := false, returnedValue := none }
    else restBlock true (some (mqttCmd, area_num))
  else
    if cfg.mqtt_enabled then
      if !cfg.api_enabled || cfg.mqtt_only then
        { publishCalled := false, publishedAction := none, restCalled := false,
          restAction := none, refreshRequested := false, errorLogged := true,
          raised := false, returnedValue := none }
      else restBlock false none
    else restBlock false none

/-- Embedding of `async_alarm_disarm` (lines 276-335). -/
def async_alarm_disarm (area_num : Nat) (cfg : PanelConfig) (publishOk apiOk : Bool) :
    CmdEffects :=
  alarmCommand MQTT_CMD_DISARM CMD_DISARM area_num cfg publishOk apiOk

/-- Embedding of `async_alarm_arm_away` (lines 337-396). -/
def async_alarm_arm_away (area_num : Nat) (cfg : PanelConfig) (publishOk apiOk : Bool) :
    CmdEffects :=
  alarmCommand MQTT_CMD_ARM_AWAY CMD_ARM_AWAY area_num cfg publishOk apiOk

/-- Embedding of `async_alarm_arm_home` (lines 398-457). -/
def async_alarm_arm_home (area_num : Nat) (cfg : PanelConfig) (publishOk apiOk : Bool) :
    CmdEffects :=
  alarmCommand MQTT_CMD_ARM_HOME CMD_ARM_HOME area_num cfg publishOk apiOk

/-- Embedding of `async_alarm_arm_night` (lines 459-518). -/
def async_alarm_arm_night (area_num : Nat) (cfg : PanelConfig) (publishOk apiOk : Bool) :
    CmdEffects :=
  alarmCommand MQTT_CMD_ARM_NIGHT CMD_ARM_NIGHT area_num cfg publishOk apiOk

/-- The four logical commands of the panel entity. -/
inductive PanelCommand where
  | disarm
  | arm_away
  | arm_home
  | arm_night
deriving DecidableEq, Repr

/-- Run one of the four command handlers. -/
def runPanelCommand : PanelCommand → Nat → PanelConfig → Bool → Bool → CmdEffects
  | .disarm => async_alarm_disarm
  | .arm_away => async_alarm_arm_away
  | .arm_home => async_alarm_arm_home
  | .arm_night => async_alarm_arm_night

/-- Coordinator data for one device, as read by `_get_olarm_state`:
`device["deviceState"]["areas"]` when both keys are present. -/
structure CoordinatorDevice where
  deviceStateAreas : Option (List String)
deriving DecidableEq, Repr

/-- Python truthiness of `self._current_state` (an optional string):
`None` and the empty string are falsy. -/
def truthyStr : Option String → Bool
  | none => false
  | some s => s ≠ ""

/-- Embedding of `_get_olarm_state` (lines 211-235): MQTT state if enabled and truthy;
else `STATE_DISARMED` when the API is disabled; else the coordinator's
area state, or `None` when the device or the area is missing.  The
coordinator data dict is modelled as an association list (`not
self.coordinator.data` is the empty dict). -/
def getOlarmState (mqtt_enabled : Bool) (current_state : Option String)
    (api_enabled : Bool) (coordData : List (String × CoordinatorDevice))
    (device_id : String) (area_num : Nat) : Option String :=
  if mqtt_enabled && truthyStr current_state then current_state
  else if !api_enabled then some STATE_DISARMED
  else
    match coordData.lookup device_id with
    | none => none
    | some dev =>
      match dev.deviceStateAreas with
      | none => none
      | some areas =>
          if areas.length < area_num then none
          else areas.get? (area_num - 1)

/-- Home Assistant `AlarmControlPanelState` values used by the mapping. -/
inductive HAAlarmState where
  | DISARMED
  | ARMED_AWAY
  | ARMED_HOME
  | ARMED_NIGHT
  | TRIGGERED
  | ARMING
deriving DecidableEq, Repr

/-- Embedding of `OLARM_TO_HA_STATE` (alarm_control_panel.py lines 44-51). -/
def OLARM_TO_HA_STATE (s : String) : Option HAAlarmState :=
  if s = STATE_DISARMED then some .DISARMED
  else if s = STATE_ARMED_AWAY then some .ARMED_AWAY
  else if s = STATE_ARMED_HOME then some .ARMED_HOME
  else if s = STATE_ARMED_NIGHT then some .ARMED_NIGHT
  else if s = STATE_TRIGGERED then some .TRIGGERED
  else if s = STATE_PENDING then some .ARMING
  else none

/-- The `alarm_state` property (lines 201-209): `None` when no Olarm state,
else the mapped HA enum value. -/
def alarmStateProperty (mqtt_enabled : Bool) (current_state : Option String)
    (api_enabled : Bool) (coordData : List (String × CoordinatorDevice))
    (device_id : String) (area_num : Nat) : Option HAAlarmState :=
  match getOlarmState mqtt_enabled current_state api_enabled coordData device_id area_num with
  | none => none
  | some s => OLARM_TO_HA_STATE s

/-! ### MQTT client (`mqtt.py`)

`OlarmMqttClient` is modelled as a state record plus transition functions
for `connect`, the paho callbacks `on_connect` / `on_disconnect`,
`schedule_reconnect`, the `_delayed_reconnect` task body, `disconnect`,
the two publish operations and `get_status`.  `paho-mqtt` is taken as
installed (`HAS_PAHO = True`).  `reconnect_task` is modelled by the flag
`reconnectPending`, set when a delayed-reconnect coroutine is submitted
(`asyncio.run_coroutine_threadsafe`, line 225) and cleared where the code
assigns `self.reconnect_task = None`.  Publish results carry paho return
codes as `Nat` (`0` = success). -/

def MAX_RECONNECT_ATTEMPTS : Nat := 5
def RECONNECT_DELAY : Nat := 5

/-- Mutable state of one `OlarmMqttClient` (fields of `__init__`, lines
55-73, that the modelled operations read or write).  `hasClient` is
`self.mqtt_client is not None`; `statusRequestsPublished` counts the
status-request publish calls actually issued (trace, for the
exactly-once property). -/
structure MqttState where
  device_imei : String
  hasClient : Bool
  is_connected : Bool
  subscribed_topics : List String
  reconnect_attempts : Nat
  reconnectPending : Bool
  connection_time : Option Nat
  messages_received : Nat
  last_message_time : Option Nat
  statusRequestsPublished : Nat
deriving DecidableEq, Repr

/-- Embedding of `__init__` (lines 55-73): no client, not connected, empty subscription
set, zero reconnect attempts, no pending task. -/
def initMqtt (imei : String) : MqttState :=
  { device_imei := imei
    hasClient := false
    is_connected := false
    subscribed_topics := []
    reconnect_attempts := 0
    reconnectPending := false
    connection_time := none
    messages_received := 0
    last_message_time := none
    statusRequestsPublished := 0 }

/-- Embedding of `publish_status_request` (lines 307-334): gated on
`is_connected and mqtt_client`; otherwise publishes to the status topic
and returns whether the publish's return code was 0 (an exception during
publish also yields `False`; the publish attempt is counted once the
gate passes). -/
def publish_status_request (pubRc : Nat) (s : MqttState) : MqttState × Bool :=
  if !s.is_connected || !s.hasClient then (s, false)
  else
    ({ s with statusRequestsPublished := s.statusRequestsPublished + 1 }, pubRc == 0)

/-- Embedding of `publish_action` (lines 336-368): same gating; publishes
`{"method":"POST","data":[action_cmd, area_num]}` to the control topic and
returns whether the return code was 0. -/
def publish_action (action_cmd : String) (area_num : Nat) (pubRc : Nat) (s : MqttState) :
    MqttState × Bool :=
  if !s.is_connected || !s.hasClient then (s, false)
  else (s, pubRc == 0)

/-- Embedding of `schedule_reconnect` (lines 210-225): when the attempt counter has
reached `max_reconnect_attempts` it clears `reconnect_task` and schedules
nothing; otherwise it increments the counter first and computes
`delay = reconnect_delay * 2 ** (reconnect_attempts - 1)` from the
incremented counter, submitting `_delayed_reconnect(delay)`.  The
returned `Option Nat` is the scheduled delay, `none` when nothing was
scheduled. -/
def schedule_reconnect (s : MqttState) : MqttState × Option Nat :=
  if MAX_RECONNECT_ATTEMPTS ≤ s.reconnect_attempts then
    ({ s with reconnectPending := false }, none)
  else
    let n := s.reconnect_attempts + 1
    ({ s with reconnect_attempts := n, reconnectPending := true },
     some (RECONNECT_DELAY * 2 ^ (n - 1)))

/-- Embedding of `on_connect` (lines 158-191).  `rc == 0`: record the connection time,
reset the attempt counter, set `is_connected`, subscribe to
`so/app/v1/{imei}` and publish one status request (its boolean result is
ignored).  `rc != 0`: clear `is_connected` and, when no reconnect task is
pending, call `schedule_reconnect`. -/
def on_connect (rc : Nat) (now : Nat) (pubRc : Nat) (s : MqttState) :
    MqttState × Option Nat :=
  if rc == 0 then
    let topic := s!"so/app/v1/{s.device_imei}"
    let s1 : MqttState :=
      { s with connection_time := some now
               reconnect_attempts := 0
               is_connected := true
               subscribed_topics := s.subscribed_topics.insert topic }
    ((publish_status_request pubRc s1).1, none)
  else
    let s1 : MqttState := { s with is_connected := false }
    if s1.reconnectPending then (s1, none) else schedule_reconnect s1

/-- Embedding of `on_disconnect` (lines 193-208): always clears `is_connected` and the
subscription set; on an unexpected drop (`rc != 0`) with no pending
reconnect task, schedules a reconnect. -/
def on_disconnect (rc : Nat) (s : MqttState) : MqttState × Option Nat :=
  let s1 : MqttState := { s with is_connected := false, subscribed_topics := [] }
  if rc == 0 then (s1, none)
  else if s1.reconnectPending then (s1, none) else schedule_reconnect s1

/-- How one `connect()` attempt resolves within its 15 s wait loop:
either the broker answers and `on_connect` fires with return code `rc`
(at time `now`; `pubRc` is the code of the status-request publish issued
when `rc = 0`), or nothing fires before the timeout. -/
inductive ConnectOutcome where
  | callback (rc : Nat) (now : Nat) (pubRc : Nat)
  | timeout
deriving DecidableEq, Repr

/-- Embedding of `connect` (lines 86-156).  Already connected: return `True` at once
(lines 96-98).  Otherwise create the client (`hasClient := true`), start
the loop and wait: the wait loop returns `True` as soon as it observes
`is_connected` (which `on_connect` sets exactly when `rc = 0`);
otherwise the wait times out, the client is stopped and dropped
(`self.mqtt_client = None`, line 148) and `connect` returns `False`.
A callback with `rc ≠ 0` may schedule a reconnect before the cleanup. -/
def connect (o : ConnectOutcome) (s : MqttState) : MqttState × Bool :=
  if s.is_connected then (s, true)
  else
    let s1 : MqttState := { s with hasClient := true }
    match o with
    | .callback rc now pubRc =>
        let s2 := (on_connect rc now pubRc s1).1
        if s2.is_connected then (s2, true)
        else ({ s2 with hasClient := false }, false)
    | .timeout => ({ s1 with hasClient := false }, false)

/-- Embedding of `_delayed_reconnect` firing after its delay (lines 227-244): if the
client is already connected the task just clears itself; otherwise it
awaits `connect()`; in both cases the `finally` block clears
`reconnect_task`. -/
def delayed_reconnect_fire (o : ConnectOutcome) (s : MqttState) : MqttState :=
  if s.is_connected then { s with reconnectPending := false }
  else { (connect o s).1 with reconnectPending := false }

/-- Embedding of `disconnect` (lines 370-383): when a client object exists, stop it;
the `finally` block clears `is_connected` and the subscription set.  The
client reference is kept (`self.mqtt_client` is never set to `None`
here) and `reconnect_task` is not touched. -/
def disconnect (s : MqttState) : MqttState :=
  if s.hasClient then { s with is_connected := false, subscribed_topics := [] }
  else s

/-- The dict returned by `get_status` (lines 385-414). -/
structure MqttStatus where
  device_imei : String
  is_connected : Bool
  messages_received : Nat
  uptime_seconds : Option Nat
  last_message_seconds_ago : Option Nat
  subscribed_topics : List String
  reconnect_attempts : Nat
deriving DecidableEq, Repr

/-- Embedding of `get_status` (lines 385-414): a pure read of the client state. -/
def get_status (now : Nat) (s : MqttState) : MqttStatus :=
  { device_imei := s.device_imei
    is_connected := s.is_connected
    messages_received := s.messages_received
    uptime_seconds := s.connection_time.map fun t => now - t
    last_message_seconds_ago := s.last_message_time.map fun t => now - t
    subscribed_topics := s.subscribed_topics
    reconnect_attempts := s.reconnect_attempts }

/-! ### REST client (`api.py`)

`OlarmApiClient._request` (lines 63-94) issues exactly one HTTP call under
`async_timeout.timeout(30)`.  The network is an oracle: the server
responds with a status and body, or the session raises
`aiohttp.ClientError`, or the 30 s bound elapses.  A `status == 200`
response returns the parsed body; any other status logs and raises
`OlarmApiError(f"Error {status}: {text}")`; `aiohttp.ClientError` is
converted to `OlarmApiError(f"Connection error: ...")`.  On timeout the
context manager raises `asyncio.TimeoutError`; the clause
`except async_timeout.timeout:` names the context-manager class, which is
not the exception type raised, so the conversion to
`OlarmApiError("Connection timeout")` on line 94 is unreachable and the
timeout propagates out of `_request` unconverted. -/

def REQUEST_TIMEOUT_SECONDS : Nat := 30

/-- How the single HTTP attempt of `_request` resolves. -/
inductive HttpOutcome where
  | response (status : Nat) (body : String)
  | clientError (msg : String)
  | timedOut
deriving DecidableEq, Repr

/-- What escapes `_request` when it does not return normally. -/
inductive RequestFailure where
  /-- an `OlarmApiError` raised by `_request` itself. -/
  | olarmApiError (msg : String)
  /-- an exception that propagates through `_request` unconverted. -/
  | uncaught (name : String)
deriving DecidableEq, Repr

/-- Embedding of `_request` (lines 63-94) as a function of the HTTP outcome; the `.ok`
value is the response body handed to `response.json()`. -/
def olarmRequest (o : HttpOutcome) : Except RequestFailure String :=
  match o with
  | .response status body =>
      if status == 200 then .ok body
      else .error (.olarmApiError s!"Error {status}: {body}")
  | .clientError msg => .error (.olarmApiError s!"Connection error: {msg}")
  | .timedOut => .error (.uncaught "TimeoutError")

/-- Embedding of `send_device_action` (lines 31-37): one `_request` POST carrying
`{actionCmd, actionNum}`; no retry around it. -/
def send_device_action (o : HttpOutcome) : Except RequestFailure String :=
  olarmRequest o

/-! ### Theorems -/

/-- Processing one full snapshot replaces the stored state, areas and
zones for the device with values computed from that snapshot alone. -/
theorem processFullSnapshot_at (h : HandlerState) (d : String) (a : AlarmData)
    (la lz : List String) (st : List Nat)
    (has : a.areas = some la) (hzs : a.zones = some lz) (hst : a.zonesStamp = some st) :
    get_device_state (processMqttMessage h d (streamEnvelope a)).1 d = some a ∧
    get_device_areas (processMqttMessage h d (streamEnvelope a)).1 d = mkAreas d a la ∧
    get_device_zones (processMqttMessage h d (streamEnvelope a)).1 d = mkZones d lz st := by
  simp [processMqttMessage, streamEnvelope, processAlarmPayload, newAreasOf, newZonesOf,
        get_device_state, get_device_areas, get_device_zones, has, hzs, hst]

/-- C1: for every device and every sequence of incoming STREAM snapshots,
applying a snapshot fully replaces the stored areas, zones and power for
that device, so the final stored device state equals the last-applied
snapshot exactly — the stored `device_state` entry is the last snapshot's
`data` object (power included), and the stored area and zone lists are
computed from that last snapshot alone, with no dependence on the initial
state or on any earlier message. -/
theorem stream_snapshots_fully_replace (h : HandlerState) (d : String)
    (msgs : List AlarmData) (last : AlarmData)
    (hfull : ∀ m ∈ msgs, m.isFullSnapshot)
    (hlast : msgs.getLast? = some last) :
    get_device_state (applySnapshots h d msgs) d = some last ∧
    get_device_areas (applySnapshots h d msgs) d = mkAreas d last (last.areas.getD []) ∧
    get_device_zones (applySnapshots h d msgs) d =
      mkZones d (last.zones.getD []) (last.zonesStamp.getD []) := by
  induction msgs generalizing h with
  | nil => simp at hlast
  | cons m rest ih =>
    match rest with
    | [] =>
      have hm : last = m := by simpa using hlast.symm
      subst hm
      obtain ⟨ha, hz, hs⟩ := hfull last (by simp)
      obtain ⟨la, hla⟩ := Option.isSome_iff_exists.mp ha
      obtain ⟨lz, hlz⟩ := Option.isSome_iff_exists.mp hz
      obtain ⟨st, hst⟩ := Option.isSome_iff_exists.mp hs
      have := processFullSnapshot_at h d last la lz st hla hlz hst
      simpa [applySnapshots, hla, hlz, hst] using this
    | m2 :: rest2 =>
      have hlast2 : (m2 :: rest2).getLast? = some last := by
        simpa [List.getLast?_cons_cons] using hlast
      have hfull2 : ∀ x ∈ m2 :: rest2, x.isFullSnapshot := fun x hx =>
        hfull x (List.mem_cons_of_mem _ hx)
      exact ih hfull2 hlast2 (h := (processMqttMessage h d (streamEnvelope m)).1)

def c1SnapA : AlarmData :=
  { areas := some ["disarm", "disarm"]
    areasDetail := some ["Home", ""]
    areasStamp := some [10, 11]
    zones := some ["c", "a"]
    zonesStamp := some [1, 2]
    power := some { AC := some "1", Batt := some "1" } }

def c1SnapB : AlarmData :=
  { areas := some ["arm"]
    areasDetail := none
    areasStamp := none
    zones := some ["b"]
    zonesStamp := some [3]
    power := some { AC := some "0", Batt := some "1" } }

/-- Witness for C1 at a concrete two-snapshot sequence. -/
theorem stream_snapshots_fully_replace_witness :
    get_device_state (applySnapshots initHandler "dev1" [c1SnapA, c1SnapB]) "dev1" =
      some c1SnapB ∧
    get_device_areas (applySnapshots initHandler "dev1" [c1SnapA, c1SnapB]) "dev1" =
      mkAreas "dev1" c1SnapB (c1SnapB.areas.getD []) ∧
    get_device_zones (applySnapshots initHandler "dev1" [c1SnapA, c1SnapB]) "dev1" =
      mkZones "dev1" (c1SnapB.zones.getD []) (c1SnapB.zonesStamp.getD []) :=
  stream_snapshots_fully_replace initHandler "dev1" [c1SnapA, c1SnapB] c1SnapB
    (by decide) (by decide)

/-- Whether a signal is a per-area notification. -/
def Signal.isArea : Signal → Bool
  | .area _ _ => true
  | _ => false

/-- Whether a signal is a per-zone notification. -/
def Signal.isZone : Signal → Bool
  | .zone _ _ => true
  | _ => false

/-- Whether a signal is the per-area notification for a given area
number of a given device. -/
def Signal.isAreaNumbered (device_id : String) (n : Nat) : Signal → Bool
  | .area name _ => name = areaSignalName device_id n
  | _ => false

theorem filter_map_all_true {α β : Type} (f : α → β) (p : β → Bool) (l : List α)
    (h : ∀ x, p (f x) = true) : (l.map f).filter p = l.map f := by
  induction l with
  | nil => rfl
  | cons x xs ih => simp [List.filter, h x, ih]

theorem filter_map_all_false {α β : Type} (f : α → β) (p : β → Bool) (l : List α)
    (h : ∀ x, p (f x) = false) : (l.map f).filter p = [] := by
  induction l with
  | nil => rfl
  | cons x xs ih => simp [List.filter, h x, ih]

theorem length_filter_map_all_true {α β : Type} (f : α → β) (p : β → Bool) (l : List α)
    (h : ∀ x, p (f x) = true) : ((l.map f).filter p).length = l.length := by
  rw [filter_map_all_true f p l h, List.length_map]

def c2First : AlarmData :=
  { areas := some ["disarm", "disarm"]
    areasDetail := none
    areasStamp := none
    zones := some ["c"]
    zonesStamp := some [5]
    power := none }

def c2Second : AlarmData :=
  { areas := some ["arm", "disarm"]
    areasDetail := none
    areasStamp := none
    zones := some ["c"]
    zonesStamp := some [5]
    power := none }

/-- C2 counterexample: after a first snapshot storing area states
`["disarm", "disarm"]` and zone state `["c"]`, a second snapshot changing
only area 1 to `"arm"` still dispatches a notification for area 2 (whose
value `"disarm"` is unchanged) and a zone notification (zone 1 unchanged):
notifications are not emitted only for indices whose value differs. -/
theorem notification_iff_changed_counterexample :
    ((get_device_areas (processMqttMessage initHandler "d1" (streamEnvelope c2First)).1
        "d1").get? 1).map AreaRecord.area_state = some "disarm" ∧
    (c2Second.areas.getD []).get? 1 = some "disarm" ∧
    ((processMqttMessage (processMqttMessage initHandler "d1" (streamEnvelope c2First)).1
        "d1" (streamEnvelope c2Second)).2.filter (Signal.isAreaNumbered "d1" 2)).length = 1 ∧
    ((processMqttMessage (processMqttMessage initHandler "d1" (streamEnvelope c2First)).1
        "d1" (streamEnvelope c2Second)).2.filter Signal.isZone).length = 1 := by
  decide

/-- C2 amended: `_process_alarm_payload` does not diff values to decide
what to notify — the dispatched signals are independent of the previously
stored snapshot, and one per-area notification is emitted for every area
index present in the message (and one per-zone notification for every
zone index, when `zones` and `zonesStamp` are both present), whether or
not the value at that index changed; the value comparison against the
prior snapshot only gates log output. -/
theorem notifications_emitted_per_index_unconditionally (h h' : HandlerState) (d : String)
    (env : Envelope) (a : AlarmData) (la : List String)
    (hdata : env.data = some a) (has : a.areas = some la) :
    (processAlarmPayload h d env).2 = (processAlarmPayload h' d env).2 ∧
    ((processAlarmPayload h d env).2.filter Signal.isArea).length = la.length ∧
    (∀ lz st, a.zones = some lz → a.zonesStamp = some st →
      ((processAlarmPayload h d env).2.filter Signal.isZone).length = lz.length) := by
  refine ⟨?_, ?_, ?_⟩
  · simp [processAlarmPayload, hdata]
  · have harea : ∀ x : AreaRecord,
        Signal.isArea (Signal.area (areaSignalName d x.area_number) x) = true := by
      intro x; rfl
    have hzoneF : ∀ x : ZoneRecord,
        Signal.isArea (Signal.zone (zoneSignalName d x.zone_number) x) = false := by
      intro x; rfl
    cases hzs : newZonesOf d a with
    | none =>
        simp [processAlarmPayload, hdata, newAreasOf, has, hzs,
              filter_map_all_true _ _ _ harea, Signal.isArea, mkAreas]
        exact (length_filter_map_all_true _ _ _ (fun x => rfl)).trans (by simp)
    | some lz2 =>
        simp [processAlarmPayload, hdata, newAreasOf, has, hzs, List.filter_append,
              filter_map_all_true _ _ _ harea, filter_map_all_false _ _ _ hzoneF,
              Signal.isArea, mkAreas]
        exact (length_filter_map_all_true _ _ _ (fun x => rfl)).trans (by simp)
  · intro lz st hlz hst
    have hzone : ∀ x : ZoneRecord,
        Signal.isZone (Signal.zone (zoneSignalName d x.zone_number) x) = true := by
      intro x; rfl
    have hareaF : ∀ x : AreaRecord,
        Signal.isZone (Signal.area (areaSignalName d x.area_number) x) = false := by
      intro x; rfl
    simp [processAlarmPayload, hdata, newAreasOf, has, newZonesOf, hlz, hst,
          List.filter_append, filter_map_all_true _ _ _ hzone,
          filter_map_all_false _ _ _ hareaF, Signal.isZone, mkZones]
    exact (length_filter_map_all_true _ _ _ (fun x => rfl)).trans (by simp)

/-- Witness for the amended C2 at a concrete snapshot: two areas and one
zone in the message give exactly two area notifications. -/
theorem notifications_emitted_per_index_unconditionally_witness :
    ((processAlarmPayload initHandler "d1" (streamEnvelope c2Second)).2.filter
      Signal.isArea).length = ["arm", "disarm"].length :=
  (notifications_emitted_per_index_unconditionally initHandler initHandler "d1"
    (streamEnvelope c2Second) c2Second ["arm", "disarm"] rfl rfl).2.1

/-- C3: for every command (disarm, arm away, arm home, arm night), when a
stream client exists, MQTT is enabled, the client is connected and
`publish_action` returns true, the handler returns successfully — no
exception, no error log — without ever calling the REST client's
`send_device_action`. -/
theorem publish_success_skips_rest (c : PanelCommand) (area_num : Nat)
    (cfg : PanelConfig) (apiOk : Bool)
    (hen : cfg.mqtt_enabled = true) (hcl : cfg.has_mqtt_client = true)
    (hco : cfg.mqtt_connected = true) :
    (runPanelCommand c area_num cfg true apiOk).restCalled = false ∧
    (runPanelCommand c area_num cfg true apiOk).restAction = none ∧
    (runPanelCommand c area_num cfg true apiOk).raised = false ∧
    (runPanelCommand c area_num cfg true apiOk).errorLogged = false ∧
    (runPanelCommand c area_num cfg true apiOk).publishCalled = true := by
  cases c <;>
    simp [runPanelCommand, async_alarm_disarm, async_alarm_arm_away, async_alarm_arm_home,
          async_alarm_arm_night, alarmCommand, hen, hcl, hco]

def fullStreamCfg : PanelConfig :=
  { mqtt_enabled := true
    has_mqtt_client := true
    mqtt_connected := true
    mqtt_only := true
    api_enabled := false }

/-- Witness for C3: a connected stream-only panel disarms over MQTT with
the REST client untouched. -/
theorem publish_success_skips_rest_witness :
    (runPanelCommand .disarm 1 fullStreamCfg true true).restCalled = false ∧
    (runPanelCommand .disarm 1 fullStreamCfg true true).restAction = none ∧
    (runPanelCommand .disarm 1 fullStreamCfg true true).raised = false ∧
    (runPanelCommand .disarm 1 fullStreamCfg true true).errorLogged = false ∧
    (runPanelCommand .disarm 1 fullStreamCfg true true).publishCalled = true :=
  publish_success_skips_rest .disarm 1 fullStreamCfg true rfl rfl rfl

def c4Cfg : PanelConfig :=
  { mqtt_enabled := true
    has_mqtt_client := true
    mqtt_connected := true
    mqtt_only := true
    api_enabled := false }

/-- C4 counterexample: in stream-only mode (`mqtt_only`, REST disabled)
with a connected client whose publish fails, the disarm handler returns
`None` — the Python command handlers have no typed result value at all,
so no `UNAVAILABLE` (nor any of the four typed results) is returned; the
failure is only logged. -/
theorem stream_only_unavailable_counterexample :
    (async_alarm_disarm 1 c4Cfg false true).returnedValue = none ∧
    (async_alarm_disarm 1 c4Cfg false true).returnedValue ≠
      some CommandResult.UNAVAILABLE ∧
    (async_alarm_disarm 1 c4Cfg false true).errorLogged = true ∧
    (async_alarm_disarm 1 c4Cfg false true).restCalled = false ∧
    (async_alarm_disarm 1 c4Cfg false true).raised = false := by
  decide

/-- C4 amended: in stream-only mode (REST client disabled), every command
whose stream publish fails or whose stream connection is unavailable
terminates without raising an exception, never calls the REST client and
never silently drops the command — it writes an error log — but it
returns no typed result: the handlers return Python `None`. -/
theorem stream_only_failure_logged_never_raises (c : PanelCommand) (area_num : Nat)
    (cfg : PanelConfig) (publishOk apiOk : Bool)
    (hapi : cfg.api_enabled = false)
    (hfail : ¬(cfg.mqtt_enabled = true ∧ cfg.has_mqtt_client = true ∧
               cfg.mqtt_connected = true ∧ publishOk = true)) :
    (runPanelCommand c area_num cfg publishOk apiOk).raised = false ∧
    (runPanelCommand c area_num cfg publishOk apiOk).restCalled = false ∧
    (runPanelCommand c area_num cfg publishOk apiOk).errorLogged = true ∧
    (runPanelCommand c area_num cfg publishOk apiOk).returnedValue = none := by
  obtain ⟨me, hc, mc, mo, ae⟩ := cfg
  simp only at hapi
  subst hapi
  cases c <;> cases me <;> cases hc <;> cases mc <;> cases mo <;> cases publishOk <;>
    simp_all [runPanelCommand, async_alarm_disarm, async_alarm_arm_away,
              async_alarm_arm_home, async_alarm_arm_night, alarmCommand]

/-- Witness for the amended C4: arm-away on a disconnected stream-only
panel logs and returns without touching REST. -/
theorem stream_only_failure_logged_never_raises_witness :
    (runPanelCommand .arm_away 2 { fullStreamCfg with mqtt_connected := false }
      false false).raised = false ∧
    (runPanelCommand .arm_away 2 { fullStreamCfg with mqtt_connected := false }
      false false).restCalled = false ∧
    (runPanelCommand .arm_away 2 { fullStreamCfg with mqtt_connected := false }
      false false).errorLogged = true ∧
    (runPanelCommand .arm_away 2 { fullStreamCfg with mqtt_connected := false }
      false false).returnedValue = none :=
  stream_only_failure_logged_never_raises .arm_away 2
    { fullStreamCfg with mqtt_connected := false } false false rfl (by simp)

/-- C10: with the API disabled and no MQTT-sourced area state received yet
(`_current_state` is `None`), `_get_olarm_state` returns
`STATE_DISARMED` (`"disarm"`) and the `alarm_state` property reports
`DISARMED`, whatever the coordinator data says the panel's real arm state
is. -/
theorem api_disabled_no_stream_state_reports_disarmed (mqtt_enabled : Bool)
    (current_state : Option String) (coordData : List (String × CoordinatorDevice))
    (device_id : String) (area_num : Nat) (hcs : current_state = none) :
    getOlarmState mqtt_enabled current_state false coordData device_id area_num =
      some STATE_DISARMED ∧
    alarmStateProperty mqtt_enabled current_state false coordData device_id area_num =
      some HAAlarmState.DISARMED := by
  subst hcs
  simp [getOlarmState, truthyStr, alarmStateProperty, OLARM_TO_HA_STATE]

/-- Witness for C10: the coordinator reports the panel as triggered
(`"alarm"`), yet the entity reports disarmed. -/
theorem api_disabled_no_stream_state_reports_disarmed_witness :
    getOlarmState true none false [("dev1", { deviceStateAreas := some ["alarm"] })]
      "dev1" 1 = some STATE_DISARMED ∧
    alarmStateProperty true none false [("dev1", { deviceStateAreas := some ["alarm"] })]
      "dev1" 1 = some HAAlarmState.DISARMED :=
  api_disabled_no_stream_state_reports_disarmed true none
    [("dev1", { deviceStateAreas := some ["alarm"] })] "dev1" 1 rfl

/-- C5: for the n-th reconnect attempt (1 ≤ n ≤ 5, counter previously
n−1), `schedule_reconnect` increments the counter to n first and
schedules a delay of `5 * 2 ^ (n − 1)` seconds computed from the
incremented counter; once the counter has reached 5, a further call
schedules nothing and gives up (the pending-task slot is cleared and the
counter stays put). -/
theorem reconnect_backoff_schedule (s : MqttState) :
    (∀ n, 1 ≤ n → n ≤ MAX_RECONNECT_ATTEMPTS → s.reconnect_attempts = n - 1 →
      (schedule_reconnect s).2 = some (RECONNECT_DELAY * 2 ^ (n - 1)) ∧
      (schedule_reconnect s).1.reconnect_attempts = n ∧
      (schedule_reconnect s).1.reconnectPending = true) ∧
    (MAX_RECONNECT_ATTEMPTS ≤ s.reconnect_attempts →
      (schedule_reconnect s).2 = none ∧
      (schedule_reconnect s).1.reconnect_attempts = s.reconnect_attempts ∧
      (schedule_reconnect s).1.reconnectPending = false) := by
  have hmax : MAX_RECONNECT_ATTEMPTS = 5 := rfl
  constructor
  · intro n h1 h5 hc
    have hlt : ¬ MAX_RECONNECT_ATTEMPTS ≤ s.reconnect_attempts := by omega
    have hinc : s.reconnect_attempts + 1 = n := by omega
    simp [schedule_reconnect, hlt, hinc]
  · intro hge
    simp [schedule_reconnect, hge]

/-- Witness for C5: with the counter at 2, the third attempt is scheduled
after `5 * 2 ^ 2 = 20` seconds; with the counter at 5, nothing is
scheduled. -/
theorem reconnect_backoff_schedule_witness :
    (schedule_reconnect { initMqtt "imei0" with reconnect_attempts := 2 }).2 = some 20 ∧
    (schedule_reconnect { initMqtt "imei0" with reconnect_attempts := 5 }).2 = none :=
  ⟨((reconnect_backoff_schedule { initMqtt "imei0" with reconnect_attempts := 2 }).1
      3 (by decide) (by decide) (by decide)).1,
   ((reconnect_backoff_schedule { initMqtt "imei0" with reconnect_attempts := 5 }).2
      (by decide)).1⟩

def exhaustedState : MqttState := { initMqtt "imei1" with reconnect_attempts := 5 }

/-- C6 counterexample: with the reconnect counter exhausted (5), an
explicit `connect()` whose attempt fails — broker refuses (`rc ≠ 0`) or
the wait times out — leaves the counter at 5, and reconnect scheduling is
still impossible afterwards: `connect()` itself never resets the counter;
only a successful `on_connect(rc = 0)` does. -/
theorem connect_resets_counter_counterexample :
    (connect (.callback 5 0 0) exhaustedState).2 = false ∧
    (connect (.callback 5 0 0) exhaustedState).1.reconnect_attempts = 5 ∧
    (schedule_reconnect (connect (.callback 5 0 0) exhaustedState).1).2 = none ∧
    (connect .timeout exhaustedState).2 = false ∧
    (connect .timeout exhaustedState).1.reconnect_attempts = 5 ∧
    (schedule_reconnect (connect .timeout exhaustedState).1).2 = none := by
  decide

/-- C6 amended: after the counter is exhausted (≥ 5, connection down), an
external `connect()` call resets the attempt counter — making reconnect
scheduling possible again — exactly when the connection attempt succeeds;
a failed attempt leaves the counter exhausted and scheduling still does
nothing. -/
theorem connect_resets_counter_only_on_success (s : MqttState) (o : ConnectOutcome)
    (hex : MAX_RECONNECT_ATTEMPTS ≤ s.reconnect_attempts)
    (hnc : s.is_connected = false) :
    ((connect o s).2 = true → (connect o s).1.reconnect_attempts = 0) ∧
    ((connect o s).2 = false →
      (connect o s).1.reconnect_attempts = s.reconnect_attempts ∧
      (schedule_reconnect (connect o s).1).2 = none) := by
  cases o with
  | timeout => simp [connect, hnc, schedule_reconnect, hex]
  | callback rc now pubRc =>
    by_cases hrc : rc = 0
    · subst hrc
      simp [connect, hnc, on_connect, publish_status_request]
    · by_cases hp : s.reconnectPending <;>
        simp [connect, hnc, on_connect, hrc, hp, schedule_reconnect, hex]

/-- Witness for the amended C6: from the exhausted state, a successful
attempt resets the counter to 0; a refused attempt leaves it at 5 with
scheduling dead. -/
theorem connect_resets_counter_only_on_success_witness :
    ((connect (.callback 0 7 0) exhaustedState).2 = true →
      (connect (.callback 0 7 0) exhaustedState).1.reconnect_attempts = 0) ∧
    ((connect (.callback 3 0 0) exhaustedState).2 = false →
      (connect (.callback 3 0 0) exhaustedState).1.reconnect_attempts =
        exhaustedState.reconnect_attempts ∧
      (schedule_reconnect (connect (.callback 3 0 0) exhaustedState).1).2 = none) :=
  ⟨(connect_resets_counter_only_on_success exhaustedState (.callback 0 7 0)
      (by decide) (by decide)).1,
   (connect_resets_counter_only_on_success exhaustedState (.callback 3 0 0)
      (by decide) (by decide)).2⟩

def c7Connected : MqttState := (connect (.callback 0 100 0) (initMqtt "imei2")).1

def c7AfterDrop : MqttState := (on_disconnect 1 c7Connected).1

/-- C7 counterexample: after an unexpected drop schedules a reconnect,
calling `disconnect()` leaves the connection DISCONNECTED but does not
cancel the pending reconnect task; when the task's delay expires it finds
the client not connected and reconnects — so a pending reconnect timer
surviving `disconnect()` can re-establish the connection. -/
theorem disconnect_no_pending_timer_counterexample :
    (disconnect c7AfterDrop).is_connected = false ∧
    (disconnect c7AfterDrop).subscribed_topics = [] ∧
    (disconnect c7AfterDrop).reconnectPending = true ∧
    (delayed_reconnect_fire (.callback 0 200 0) (disconnect c7AfterDrop)).is_connected =
      true := by
  decide

/-- C7 amended: `disconnect()` is error-free and idempotent — a second
consecutive call changes nothing further — and when a client object
exists it always leaves `is_connected` false with the subscription set
cleared (with no client object it is a no-op, and the state was already
disconnected); but it does not cancel a pending reconnect task: the
pending flag survives `disconnect()` unchanged, and a surviving task can
later re-establish the connection. -/
theorem disconnect_idempotent_but_timer_survives (s : MqttState) :
    disconnect (disconnect s) = disconnect s ∧
    (s.hasClient = true → (disconnect s).is_connected = false ∧
      (disconnect s).subscribed_topics = []) ∧
    (s.hasClient = false → disconnect s = s) ∧
    (disconnect s).reconnectPending = s.reconnectPending := by
  by_cases h : s.hasClient = true <;> simp_all [disconnect]

/-- Witness for the amended C7 at the post-drop state. -/
theorem disconnect_idempotent_but_timer_survives_witness :
    disconnect (disconnect c7AfterDrop) = disconnect c7AfterDrop ∧
    ((disconnect c7AfterDrop).is_connected = false ∧
      (disconnect c7AfterDrop).subscribed_topics = []) ∧
    (disconnect c7AfterDrop).reconnectPending = c7AfterDrop.reconnectPending :=
  ⟨(disconnect_idempotent_but_timer_survives c7AfterDrop).1,
   (disconnect_idempotent_but_timer_survives c7AfterDrop).2.1 (by decide),
   (disconnect_idempotent_but_timer_survives c7AfterDrop).2.2.2⟩

/-- C8: whenever `connect()` returns true, `get_status()` afterwards
reports the client connected, and exactly one status-request publish
happened during that establishment when the client was not already
connected — while an idempotent `connect()` on an already-connected
client changes nothing and publishes no additional status request. -/
theorem connect_true_connected_status_request_once (s : MqttState) (o : ConnectOutcome)
    (now2 : Nat) (h : (connect o s).2 = true) :
    (get_status now2 (connect o s).1).is_connected = true ∧
    (s.is_connected = false →
      (connect o s).1.statusRequestsPublished = s.statusRequestsPublished + 1) ∧
    (s.is_connected = true → (connect o s).1 = s) := by
  by_cases hc : s.is_connected = true
  · simp [connect, hc, get_status]
  · have hc0 : s.is_connected = false := by simpa using hc
    cases o with
    | timeout => simp [connect, hc0] at h
    | callback rc now pubRc =>
      by_cases hrc : rc = 0
      · subst hrc
        simp [connect, hc0, on_connect, publish_status_request, get_status]
      · by_cases hp : s.reconnectPending = true
        · simp [connect, hc0, on_connect, hrc, hp] at h
        · by_cases hm : MAX_RECONNECT_ATTEMPTS ≤ s.reconnect_attempts <;>
            simp [connect, hc0, on_connect, hrc, hp, schedule_reconnect, hm] at h

/-- Witness for C8: a fresh client connecting successfully reports
connected and has published exactly one status request. -/
theorem connect_true_connected_status_request_once_witness :
    (get_status 500 (connect (.callback 0 100 0) (initMqtt "imei3")).1).is_connected =
      true ∧
    ((initMqtt "imei3").is_connected = false →
      (connect (.callback 0 100 0) (initMqtt "imei3")).1.statusRequestsPublished =
        (initMqtt "imei3").statusRequestsPublished + 1) :=
  ⟨(connect_true_connected_status_request_once (initMqtt "imei3") (.callback 0 100 0)
      500 (by decide)).1,
   (connect_true_connected_status_request_once (initMqtt "imei3") (.callback 0 100 0)
      500 (by decide)).2.1⟩

/-- C9 counterexample: the code raises `OlarmApiError` for every status
other than exactly 200, not for non-2xx statuses — a `201 Created`
response (2xx, so per the claim it should be returned parsed) raises. -/
theorem api_error_non2xx_counterexample :
    olarmRequest (.response 201 "created") =
      .error (.olarmApiError "Error 201: created") ∧
    200 ≤ 201 ∧ 201 < 300 := by
  constructor
  · rfl
  · exact ⟨by decide, by decide⟩

/-- C9 amended: every REST call is made under a bounded 30-second
timeout, and `_request` performs exactly one HTTP attempt with no
internal retry; it returns the parsed response exactly when the status is
200, raises `OlarmApiError` (whose message carries status and body) for
every other status and for `aiohttp.ClientError`; a timeout, however,
propagates out of `_request` unconverted (the `except` clause names the
`async_timeout.timeout` context-manager class, not the exception type the
expired timeout raises), so it is not surfaced as `OlarmApiError`. -/
theorem request_error_classification (o : HttpOutcome) :
    ((∃ e, olarmRequest o = .error e) ↔ ¬ ∃ body, o = .response 200 body) ∧
    (∀ body, o = .response 200 body → olarmRequest o = .ok body) ∧
    (∀ status body, o = .response status body → status ≠ 200 →
      olarmRequest o = .error (.olarmApiError s!"Error {status}: {body}")) ∧
    (∀ msg, o = .clientError msg →
      olarmRequest o = .error (.olarmApiError s!"Connection error: {msg}")) ∧
    (o = .timedOut → olarmRequest o = .error (.uncaught "TimeoutError")) ∧
    REQUEST_TIMEOUT_SECONDS = 30 := by
  refine ⟨?_, ?_, ?_, ?_, ?_, rfl⟩
  · cases o with
    | response status body =>
        by_cases hs : status = 200
        · subst hs; simp [olarmRequest]
        · simp [olarmRequest, hs]
    | clientError msg => simp [olarmRequest]
    | timedOut => simp [olarmRequest]
  · intro body hb; subst hb; simp [olarmRequest]
  · intro status body hb hs; subst hb; simp [olarmRequest, hs]
  · intro msg hm; subst hm; simp [olarmRequest]
  · intro ht; subst ht; simp [olarmRequest]

/-- Witness for the amended C9 at concrete outcomes: 200 returns the
body, 404 raises `OlarmApiError`, a network error raises `OlarmApiError`,
a timeout propagates unconverted. -/
theorem request_error_classification_witness :
    olarmRequest (.response 200 "devices") = .ok "devices" ∧
    olarmRequest (.response 404 "missing") =
      .error (.olarmApiError "Error 404: missing") ∧
    olarmRequest (.clientError "refused") =
      .error (.olarmApiError "Connection error: refused") ∧
    olarmRequest .timedOut = .error (.uncaught "TimeoutError") :=
  ⟨(request_error_classification (.response 200 "devices")).2.1 "devices" rfl,
   (request_error_classification (.response 404 "missing")).2.2.1 404 "missing" rfl
     (by decide),
   (request_error_classification (.clientError "refused")).2.2.2.1 "refused" rfl,
   (request_error_classification .timedOut).2.2.2.2.1 rfl⟩

end Olarm
